import Mathlib

/-!
Verification of the `nice_glfw` window builder (`src/lib.rs`).

The crate is a fluent builder that accumulates window attributes plus two
kinds of GLFW window hints — `common_hints` (applied on every attempt) and
`try_hints` (a priority-ordered list of candidate hint sets) — and whose
terminal `create()` walks the candidates in order, resetting the hint state
before each attempt, until `glfw.create_window` succeeds.

The external GLFW handle is modelled as a small state machine (`Glfw`): it
carries a success oracle `createOk` standing for the platform's window
creation behaviour, the currently pending hint state, and a trace `ops` of
every call the builder makes against the handle.  All builder code below is
a direct transcription of the Rust source; theorems at the end of the file
settle the specification claims against it.
-/

set_option autoImplicit false

namespace NiceGlfw

/-- OpenGL profile values of the external `glfw` crate's `OpenGlProfileHint`.
The builder never interprets them, it only stores and replays them. -/
inductive OpenGlProfileHint where
  | Any
  | Core
  | Compat
  deriving DecidableEq, Repr

/-- Window mode (`glfw::WindowMode<'monitor>`): windowed, or full screen on a
monitor.  The borrowed monitor reference is opaque to the builder and is
modelled by an identifier. -/
inductive WindowMode where
  | Windowed
  | FullScreen (monitor : Nat)
  deriving DecidableEq, Repr

/-- The `glfw::WindowHint` variants the crate mentions explicitly
(`ContextVersion`, `OpenGlForwardCompat`, `OpenGlProfile`, `ContextNoError`,
`RefreshRate`), plus an opaque stand-in `Other` for the remaining hints of
the external crate, which the builder stores and replays without ever
inspecting. -/
inductive WindowHint where
  | ContextVersion (major minor : Nat)
  | OpenGlForwardCompat (flag : Bool)
  | OpenGlProfile (profile : OpenGlProfileHint)
  | ContextNoError (flag : Bool)
  | RefreshRate (rate : Option Nat)
  | Other (code : Nat)
  deriving DecidableEq, Repr

/-- One observable call made against the external GLFW handle:
a hint reset (`glfw.default_window_hints()`), a hint application
(`glfw.window_hint(h)`), a window-creation attempt
(`glfw.create_window(w, h, title, mode)`, with its outcome), or an
aspect-ratio constraint on a created window
(`window.set_aspect_ratio(numer, denom)`). -/
inductive GlfwOp where
  | defaultWindowHints
  | windowHint (hint : WindowHint)
  | createWindowOp (width height : Nat) (title : String) (mode : WindowMode) (success : Bool)
  | setAspectOp (numer denom : Nat)
  deriving DecidableEq, Repr

/-- Model of the external `glfw::Glfw` handle.  `createOk` is the platform
oracle deciding whether `create_window` succeeds for a given pending hint
state and arguments; `pending` is the hint state accumulated since the last
reset; `ops` is the trace of all calls made on the handle. -/
structure Glfw where
  createOk : List WindowHint → Nat → Nat → String → WindowMode → Bool
  pending : List WindowHint
  ops : List GlfwOp

/-- Model of a created `glfw::Window`: the arguments it was created with,
the hint state in force at creation, and the aspect-ratio constraint
applied to it after creation, if any. -/
structure Window where
  width : Nat
  height : Nat
  title : String
  mode : WindowMode
  hints : List WindowHint
  aspect : Option (Nat × Nat)
  deriving DecidableEq, Repr

/-- Stand-in for the `Receiver<(f64, WindowEvent)>` event stream returned by
`glfw.create_window`; an external channel the builder only passes through. -/
structure EventReceiver where
  deriving DecidableEq, Repr

/-- Models `glfw.default_window_hints()`: reset the pending hint state to system
defaults. -/
def Glfw.default_window_hints (g : Glfw) : Glfw :=
  { g with pending := [], ops := g.ops ++ [GlfwOp.defaultWindowHints] }

/-- Models `glfw.window_hint(hint)`: add one hint to the pending hint state. -/
def Glfw.window_hint (g : Glfw) (hint : WindowHint) : Glfw :=
  { g with pending := g.pending ++ [hint], ops := g.ops ++ [GlfwOp.windowHint hint] }

/-- Models `glfw.create_window(width, height, title, mode)`: consult the platform
oracle on the pending hint state; on success return a window (and its event
receiver) created with exactly those arguments and hints. -/
def Glfw.create_window (g : Glfw) (width height : Nat) (title : String) (mode : WindowMode) :
    Option (Window × EventReceiver) × Glfw :=
  let ok := g.createOk g.pending width height title mode
  let g' : Glfw := { g with ops := g.ops ++ [GlfwOp.createWindowOp width height title mode ok] }
  if ok then
    (some ({ width := width, height := height, title := title, mode := mode,
             hints := g.pending, aspect := none }, EventReceiver.mk), g')
  else
    (none, g')

/-- Models `window.set_aspect_ratio(numer, denom)`: constrain the window's aspect
ratio; recorded both on the window and in the handle's call trace. -/
def Window.set_aspect (w : Window) (numer denom : Nat) (g : Glfw) : Window × Glfw :=
  ({ w with aspect := some (numer, denom) },
   { g with ops := g.ops ++ [GlfwOp.setAspectOp numer denom] })

/-- The `WindowBuilder` struct of `src/lib.rs`.  Field `aspect` is the Rust
field `aspect_ratio`; the other field names match the source
(`glfw`, `size`, `title`, `mode`, `common_hints`, `try_hints`). -/
structure WindowBuilder where
  glfw : Glfw
  size : Option (Nat × Nat)
  aspect : Option (Nat × Nat)
  title : Option String
  mode : Option WindowMode
  common_hints : List WindowHint
  try_hints : List (List WindowHint)

/-- Constructor `WindowBuilder::new(glfw)`: a builder with no attributes or hints set. -/
def WindowBuilder.new (g : Glfw) : WindowBuilder :=
  { glfw := g, size := none, aspect := none, title := none, mode := none,
    common_hints := [], try_hints := [] }

/-- Builder method `size(width, height)` of the source (named `setSize` here
because the structure field is also called `size`). -/
def WindowBuilder.setSize (b : WindowBuilder) (width height : Nat) : WindowBuilder :=
  { b with size := some (width, height) }

/-- Builder method `title(title)` of the source (named `setTitle` here
because the structure field is also called `title`). -/
def WindowBuilder.setTitle (b : WindowBuilder) (title : String) : WindowBuilder :=
  { b with title := some title }

/-- Builder method `mode(mode)` of the source (named `setMode` here because
the structure field is also called `mode`). -/
def WindowBuilder.setMode (b : WindowBuilder) (mode : WindowMode) : WindowBuilder :=
  { b with mode := some mode }

/-- Builder method `common_hints(hints)` of the source (named
`addCommonHints` here because the structure field is also called
`common_hints`): extend the common hint list in call order. -/
def WindowBuilder.addCommonHints (b : WindowBuilder) (hints : List WindowHint) : WindowBuilder :=
  { b with common_hints := b.common_hints ++ hints }

/-- Builder method `no_error()`: shorthand for
`common_hints(&[WindowHint::ContextNoError(true)])`. -/
def WindowBuilder.no_error (b : WindowBuilder) : WindowBuilder :=
  b.addCommonHints [WindowHint.ContextNoError true]

/-- Builder method `refresh_rate(rate)`: shorthand for
`common_hints(&[WindowHint::RefreshRate(rate)])`. -/
def WindowBuilder.refresh_rate (b : WindowBuilder) (rate : Option Nat) : WindowBuilder :=
  b.addCommonHints [WindowHint.RefreshRate rate]

/-- Builder method `try_hints(hints)` of the source (named `addTryHints`
here because the structure field is also called `try_hints`): push one new
candidate hint set, preserving append order. -/
def WindowBuilder.addTryHints (b : WindowBuilder) (hints : List WindowHint) : WindowBuilder :=
  { b with try_hints := b.try_hints ++ [hints] }

/-- Builder method `aspect_ratio(numer, denom)` of the source: record a
post-creation aspect-ratio constraint. -/
def WindowBuilder.constrainAspect (b : WindowBuilder) (numer denom : Nat) : WindowBuilder :=
  { b with aspect := some (numer, denom) }

/-- Builder method `try_modern_context_hints()`: the fixed ladder of
candidate hint sets added by thirteen `try_hints` calls, transcribed
verbatim from the source. -/
def WindowBuilder.try_modern_context_hints (b : WindowBuilder) : WindowBuilder :=
  (b.addTryHints
      [WindowHint.ContextVersion 4 5, WindowHint.OpenGlForwardCompat true,
       WindowHint.OpenGlProfile OpenGlProfileHint.Core]
    |>.addTryHints
      [WindowHint.ContextVersion 4 4, WindowHint.OpenGlForwardCompat true,
       WindowHint.OpenGlProfile OpenGlProfileHint.Core]
    |>.addTryHints
      [WindowHint.ContextVersion 4 3, WindowHint.OpenGlForwardCompat true,
       WindowHint.OpenGlProfile OpenGlProfileHint.Core]
    |>.addTryHints
      [WindowHint.ContextVersion 4 2, WindowHint.OpenGlForwardCompat true,
       WindowHint.OpenGlProfile OpenGlProfileHint.Core]
    |>.addTryHints
      [WindowHint.ContextVersion 4 1, WindowHint.OpenGlForwardCompat true,
       WindowHint.OpenGlProfile OpenGlProfileHint.Core]
    |>.addTryHints
      [WindowHint.ContextVersion 4 0, WindowHint.OpenGlForwardCompat true,
       WindowHint.OpenGlProfile OpenGlProfileHint.Core]
    |>.addTryHints
      [WindowHint.ContextVersion 3 2, WindowHint.OpenGlForwardCompat true,
       WindowHint.OpenGlProfile OpenGlProfileHint.Core]
    |>.addTryHints
      [WindowHint.ContextVersion 3 1, WindowHint.OpenGlForwardCompat true]
    |>.addTryHints
      [WindowHint.ContextVersion 3 1]
    |>.addTryHints
      [WindowHint.ContextVersion 3 0, WindowHint.OpenGlForwardCompat true]
    |>.addTryHints
      [WindowHint.ContextVersion 3 0]
    |>.addTryHints
      [WindowHint.ContextVersion 2 1]
    |>.addTryHints
      [WindowHint.ContextVersion 2 0])

/-- Apply a list of hints in order via `glfw.window_hint`, as the two inner
`for` loops of `create()` do. -/
def applyHints (g : Glfw) (hints : List WindowHint) : Glfw :=
  hints.foldl Glfw.window_hint g

/-- The candidate loop of `create()`: for each candidate set in order, reset
the window hints, apply the common hints then the candidate hints, and
attempt window creation; on success apply the aspect-ratio constraint (if
configured) and return immediately; on failure continue with the next
candidate; with no candidate left, yield `none`. -/
def createLoop (common : List WindowHint) (aspect : Option (Nat × Nat))
    (width height : Nat) (title : String) (mode : WindowMode) :
    Glfw → List (List WindowHint) → Option (Window × EventReceiver) × Glfw
  | g, [] => (none, g)
  | g, setup :: rest =>
    let g2 := applyHints (applyHints (Glfw.default_window_hints g) common) setup
    match Glfw.create_window g2 width height title mode with
    | (some (window, events), g3) =>
      match aspect with
      | some nd =>
        let wg := Window.set_aspect window nd.1 nd.2 g3
        (some (wg.1, events), wg.2)
      | none => (some (window, events), g3)
    | (none, g3) => createLoop common aspect width height title mode g3 rest

/-- Terminal method `create()`: resolve the defaults (`640 x 480`, `"GLFW Window"`,
windowed) and run the candidate loop over `try_hints`. -/
def WindowBuilder.create (b : WindowBuilder) : Option (Window × EventReceiver) × Glfw :=
  let wh := b.size.getD (640, 480)
  let t := b.title.getD "GLFW Window"
  let m := b.mode.getD WindowMode.Windowed
  createLoop b.common_hints b.aspect wh.1 wh.2 t m b.glfw b.try_hints

/-! ## Characterization of `create()`

The definitions below are specification artifacts: they spell out, in
closed form, the result and the call trace that `create()` produces, and
the theorems tie them to the transcribed code. -/

/-- The width `create()` resolves: configured, or the default `640`. -/
def resolvedWidth (b : WindowBuilder) : Nat :=
  (b.size.getD (640, 480)).1

/-- The height `create()` resolves: configured, or the default `480`. -/
def resolvedHeight (b : WindowBuilder) : Nat :=
  (b.size.getD (640, 480)).2

/-- The title `create()` resolves: configured, or `"GLFW Window"`. -/
def resolvedTitle (b : WindowBuilder) : String :=
  b.title.getD "GLFW Window"

/-- The mode `create()` resolves: configured, or windowed. -/
def resolvedMode (b : WindowBuilder) : WindowMode :=
  b.mode.getD WindowMode.Windowed

/-- Whether the platform oracle lets a given candidate hint set succeed for
builder `b`: the hint state at each creation attempt is exactly the common
hints followed by the candidate's hints. -/
def candidateOk (b : WindowBuilder) (setup : List WindowHint) : Bool :=
  b.glfw.createOk (b.common_hints ++ setup) (resolvedWidth b) (resolvedHeight b)
    (resolvedTitle b) (resolvedMode b)

/-- The trace of one creation attempt: a hint reset, the common hints in
order, the candidate hints in order, then the creation call with its
outcome. -/
def attemptOps (common setup : List WindowHint) (width height : Nat) (title : String)
    (mode : WindowMode) (ok : Bool) : List GlfwOp :=
  GlfwOp.defaultWindowHints ::
    (common.map GlfwOp.windowHint ++ setup.map GlfwOp.windowHint ++
      [GlfwOp.createWindowOp width height title mode ok])

/-- The trace of one creation attempt of builder `b` on candidate `setup`. -/
def attemptBlock (b : WindowBuilder) (setup : List WindowHint) : List GlfwOp :=
  attemptOps b.common_hints setup (resolvedWidth b) (resolvedHeight b) (resolvedTitle b)
    (resolvedMode b) (candidateOk b setup)

/-- The candidates `create()` actually attempts: every leading candidate the
oracle rejects, followed by the first one it accepts (when there is one). -/
def attemptedList {α : Type} (p : α → Bool) (sets : List α) : List α :=
  sets.takeWhile (fun s => ! p s) ++ (sets.find? p).toList

/-- The trailing `set_aspect_ratio` call: present exactly when some
candidate succeeded and an aspect-ratio constraint was configured. -/
def aspectTail (succeeded : Bool) (aspect : Option (Nat × Nat)) : List GlfwOp :=
  match succeeded, aspect with
  | true, some nd => [GlfwOp.setAspectOp nd.1 nd.2]
  | _, _ => []

/-- The calls `create()` makes against the GLFW handle, in closed form. -/
def createDelta (b : WindowBuilder) : List GlfwOp :=
  ((attemptedList (candidateOk b) b.try_hints).map (attemptBlock b)).flatten ++
    aspectTail (b.try_hints.any (candidateOk b)) b.aspect

/-- The window `create()` returns when candidate `setup` is the first to
succeed. -/
def windowFor (b : WindowBuilder) (setup : List WindowHint) : Window :=
  { width := resolvedWidth b, height := resolvedHeight b, title := resolvedTitle b,
    mode := resolvedMode b, hints := b.common_hints ++ setup, aspect := b.aspect }

/-! ## Basic lemmas about the GLFW handle model -/

@[simp] theorem default_window_hints_createOk (g : Glfw) :
    (Glfw.default_window_hints g).createOk = g.createOk := rfl

@[simp] theorem default_window_hints_pending (g : Glfw) :
    (Glfw.default_window_hints g).pending = [] := rfl

@[simp] theorem default_window_hints_ops (g : Glfw) :
    (Glfw.default_window_hints g).ops = g.ops ++ [GlfwOp.defaultWindowHints] := rfl

@[simp] theorem window_hint_createOk (g : Glfw) (h : WindowHint) :
    (Glfw.window_hint g h).createOk = g.createOk := rfl

@[simp] theorem window_hint_pending (g : Glfw) (h : WindowHint) :
    (Glfw.window_hint g h).pending = g.pending ++ [h] := rfl

@[simp] theorem window_hint_ops (g : Glfw) (h : WindowHint) :
    (Glfw.window_hint g h).ops = g.ops ++ [GlfwOp.windowHint h] := rfl

@[simp] theorem applyHints_createOk (g : Glfw) (hs : List WindowHint) :
    (applyHints g hs).createOk = g.createOk := by
  induction hs generalizing g with
  | nil => rfl
  | cons h t ih => simp [applyHints, List.foldl_cons] at ih ⊢; exact ih _

@[simp] theorem applyHints_pending (g : Glfw) (hs : List WindowHint) :
    (applyHints g hs).pending = g.pending ++ hs := by
  induction hs generalizing g with
  | nil => simp [applyHints]
  | cons h t ih =>
    simp only [applyHints, List.foldl_cons] at ih ⊢
    rw [ih, window_hint_pending, List.append_assoc]
    rfl

@[simp] theorem applyHints_ops (g : Glfw) (hs : List WindowHint) :
    (applyHints g hs).ops = g.ops ++ hs.map GlfwOp.windowHint := by
  induction hs generalizing g with
  | nil => simp [applyHints]
  | cons h t ih =>
    simp only [applyHints, List.foldl_cons, List.map_cons] at ih ⊢
    rw [ih, window_hint_ops, List.append_assoc]
    rfl

theorem create_window_eq (g : Glfw) (width height : Nat) (title : String) (mode : WindowMode) :
    Glfw.create_window g width height title mode =
      (if g.createOk g.pending width height title mode then
        some ({ width := width, height := height, title := title, mode := mode,
                hints := g.pending, aspect := none }, EventReceiver.mk)
       else none,
       { g with ops := g.ops ++ [GlfwOp.createWindowOp width height title mode
           (g.createOk g.pending width height title mode)] }) := by
  unfold Glfw.create_window
  by_cases h : g.createOk g.pending width height title mode = true
  · simp [h]
  · simp [h]

/-! ## The candidate loop, characterized -/

theorem createLoop_fst (common : List WindowHint) (aspect : Option (Nat × Nat))
    (width height : Nat) (title : String) (mode : WindowMode)
    (sets : List (List WindowHint)) (g : Glfw) :
    (createLoop common aspect width height title mode g sets).1 =
      (sets.find? (fun s => g.createOk (common ++ s) width height title mode)).map
        (fun s => ({ width := width, height := height, title := title, mode := mode,
                     hints := common ++ s, aspect := aspect }, EventReceiver.mk)) := by
  induction sets generalizing g with
  | nil => simp [createLoop]
  | cons setup rest ih =>
    rw [createLoop, create_window_eq]
    simp only [applyHints_pending, applyHints_createOk, default_window_hints_createOk,
      default_window_hints_pending, List.nil_append]
    by_cases h : g.createOk (common ++ setup) width height title mode = true
    · have hf : List.find? (fun s => g.createOk (common ++ s) width height title mode)
          (setup :: rest) = some setup := by
        simp [List.find?_cons, h]
      rw [hf]
      simp only [h, if_pos]
      cases aspect with
      | none => simp
      | some nd => simp [Window.set_aspect]
    · have hf : List.find? (fun s => g.createOk (common ++ s) width height title mode)
          (setup :: rest) =
          List.find? (fun s => g.createOk (common ++ s) width height title mode) rest := by
        simp [List.find?_cons, h]
      rw [hf]
      simp only [h, if_neg, Bool.false_eq_true, not_false_iff, if_false]
      rw [ih]

theorem createLoop_snd_ops (common : List WindowHint) (aspect : Option (Nat × Nat))
    (width height : Nat) (title : String) (mode : WindowMode)
    (sets : List (List WindowHint)) (g : Glfw) :
    (createLoop common aspect width height title mode g sets).2.ops =
      g.ops ++
        (((attemptedList (fun s => g.createOk (common ++ s) width height title mode) sets).map
            (fun s => attemptOps common s width height title mode
              (g.createOk (common ++ s) width height title mode))).flatten ++
          aspectTail (sets.any (fun s => g.createOk (common ++ s) width height title mode))
            aspect) := by
  induction sets generalizing g with
  | nil => simp [createLoop, attemptedList, aspectTail]
  | cons setup rest ih =>
    rw [createLoop, create_window_eq]
    simp only [applyHints_pending, applyHints_createOk, default_window_hints_createOk,
      default_window_hints_pending, List.nil_append]
    by_cases h : g.createOk (common ++ setup) width height title mode = true
    · simp only [h, if_pos]
      have hatt : attemptedList (fun s => g.createOk (common ++ s) width height title mode)
          (setup :: rest) = [setup] := by
        unfold attemptedList
        simp [List.takeWhile_cons, List.find?_cons, h]
      rw [hatt]
      cases aspect with
      | none =>
        simp [aspectTail, attemptOps, h, List.any_cons]
      | some nd =>
        simp [Window.set_aspect, aspectTail, attemptOps, h, List.any_cons]
    · simp only [h, if_neg, Bool.false_eq_true, not_false_iff, if_false]
      rw [ih]
      have hatt : attemptedList (fun s => g.createOk (common ++ s) width height title mode)
          (setup :: rest) =
          setup :: attemptedList (fun s => g.createOk (common ++ s) width height title mode)
            rest := by
        unfold attemptedList
        simp [List.takeWhile_cons, List.find?_cons, h]
      rw [hatt]
      simp [attemptOps, h, List.any_cons]

/-! ## `create()` in closed form -/

theorem create_fst (b : WindowBuilder) :
    (WindowBuilder.create b).1 =
      (b.try_hints.find? (candidateOk b)).map (fun s => (windowFor b s, EventReceiver.mk)) := by
  unfold WindowBuilder.create candidateOk windowFor resolvedWidth resolvedHeight
    resolvedTitle resolvedMode
  exact createLoop_fst _ _ _ _ _ _ _ _

theorem create_snd_ops (b : WindowBuilder) :
    (WindowBuilder.create b).2.ops = b.glfw.ops ++ createDelta b := by
  unfold WindowBuilder.create createDelta attemptBlock candidateOk resolvedWidth
    resolvedHeight resolvedTitle resolvedMode
  exact createLoop_snd_ops _ _ _ _ _ _ _ _

/-! ## Counting attempts in a trace -/

/-- Whether a trace entry is a window-creation attempt. -/
def isCreateOp : GlfwOp → Bool
  | GlfwOp.createWindowOp _ _ _ _ _ => true
  | _ => false

/-- Whether a trace entry is a hint reset. -/
def isResetOp : GlfwOp → Bool
  | GlfwOp.defaultWindowHints => true
  | _ => false

@[simp] theorem countP_attemptOps_create (common setup : List WindowHint) (width height : Nat)
    (title : String) (mode : WindowMode) (ok : Bool) :
    List.countP isCreateOp (attemptOps common setup width height title mode ok) = 1 := by
  unfold attemptOps
  simp [List.countP_cons, List.countP_append, List.countP_map, Function.comp_def, isCreateOp]

@[simp] theorem countP_attemptOps_reset (common setup : List WindowHint) (width height : Nat)
    (title : String) (mode : WindowMode) (ok : Bool) :
    List.countP isResetOp (attemptOps common setup width height title mode ok) = 1 := by
  unfold attemptOps
  simp [List.countP_cons, List.countP_append, List.countP_map, Function.comp_def, isResetOp]

theorem countP_flatten_of_blocks {α : Type} (q : GlfwOp → Bool) (f : α → List GlfwOp)
    (hone : ∀ s, List.countP q (f s) = 1) :
    ∀ sets : List α, List.countP q ((sets.map f).flatten) = sets.length
  | [] => by simp
  | s :: rest => by
    simp [List.countP_append, hone s, countP_flatten_of_blocks q f hone rest,
      Nat.add_comm]

@[simp] theorem countP_aspectTail_create (succeeded : Bool) (aspect : Option (Nat × Nat)) :
    List.countP isCreateOp (aspectTail succeeded aspect) = 0 := by
  unfold aspectTail
  cases succeeded <;> cases aspect <;> simp [isCreateOp]

@[simp] theorem countP_aspectTail_reset (succeeded : Bool) (aspect : Option (Nat × Nat)) :
    List.countP isResetOp (aspectTail succeeded aspect) = 0 := by
  unfold aspectTail
  cases succeeded <;> cases aspect <;> simp [isResetOp]

/-! ## The attempted prefix when the first success has a known index -/

theorem attemptedList_first {α : Type} (p : α → Bool) :
    ∀ (sets : List α) (i : Nat) (s : α),
      sets[i]? = some s → p s = true →
      (∀ j, j < i → ∀ s', sets[j]? = some s' → p s' = false) →
      attemptedList p sets = sets.take (i + 1) ∧ sets.find? p = some s ∧
        sets.any p = true
  | [], i, s, hget, _, _ => by simp at hget
  | a :: rest, 0, s, hget, hp, _ => by
    simp only [List.getElem?_cons_zero, Option.some.injEq] at hget
    subst hget
    unfold attemptedList
    simp [List.takeWhile_cons, List.find?_cons, hp, List.any_cons]
  | a :: rest, i + 1, s, hget, hp, hmin => by
    have ha : p a = false := hmin 0 (Nat.succ_pos i) a (by simp)
    have hget' : rest[i]? = some s := by simpa using hget
    have hmin' : ∀ j, j < i → ∀ s', rest[j]? = some s' → p s' = false := by
      intro j hj s' hg
      exact hmin (j + 1) (Nat.succ_lt_succ hj) s' (by simpa using hg)
    have ih := attemptedList_first p rest i s hget' hp hmin'
    unfold attemptedList at ih ⊢
    refine ⟨?_, ?_, ?_⟩
    · rw [List.take_succ_cons]
      rw [List.takeWhile_cons]
      simp only [ha, Bool.not_false, if_pos, List.cons_append]
      rw [List.find?_cons]
      simp only [ha]
      rw [ih.1]
    · rw [List.find?_cons]
      simp only [ha]
      exact ih.2.1
    · simp [List.any_cons, ha, ih.2.2]

/-! ## Auxiliary membership lemmas -/

@[simp] theorem mem_aspectTail_iff (op : GlfwOp) (succeeded : Bool)
    (aspect : Option (Nat × Nat)) :
    op ∈ aspectTail succeeded aspect ↔
      ∃ nd, aspect = some nd ∧ succeeded = true ∧ op = GlfwOp.setAspectOp nd.1 nd.2 := by
  unfold aspectTail
  cases succeeded <;> cases aspect <;> simp

@[simp] theorem setAspect_not_mem_attemptOps (numer denom : Nat)
    (common setup : List WindowHint) (width height : Nat) (title : String)
    (mode : WindowMode) (ok : Bool) :
    GlfwOp.setAspectOp numer denom ∉ attemptOps common setup width height title mode ok := by
  unfold attemptOps
  simp

@[simp] theorem countP_attemptBlock_create (b : WindowBuilder) (s : List WindowHint) :
    List.countP isCreateOp (attemptBlock b s) = 1 := by
  unfold attemptBlock
  simp

@[simp] theorem countP_attemptBlock_reset (b : WindowBuilder) (s : List WindowHint) :
    List.countP isResetOp (attemptBlock b s) = 1 := by
  unfold attemptBlock
  simp

/-! ## Concrete fixtures for witnesses and counterexamples -/

/-- A GLFW handle whose platform oracle accepts every creation attempt. -/
def gTriv : Glfw :=
  { createOk := fun _ _ _ _ _ => true, pending := [], ops := [] }

/-- A GLFW handle whose platform oracle accepts an attempt exactly when the
pending hints contain `ContextVersion 1 0`. -/
def gOracle : Glfw :=
  { createOk := fun hs _ _ _ _ => decide (WindowHint.ContextVersion 1 0 ∈ hs),
    pending := [], ops := [] }

/-- A builder with two candidates of which only the second satisfies
`gOracle`. -/
def bTwo : WindowBuilder :=
  ((WindowBuilder.new gOracle).addTryHints [WindowHint.Other 7]).addTryHints
    [WindowHint.ContextVersion 1 0]

/-- A builder with one explicitly empty candidate set on an always-accepting
handle. -/
def bEmptyCandidate : WindowBuilder :=
  (WindowBuilder.new gTriv).addTryHints []

/-- A builder with one empty candidate set and an aspect-ratio constraint. -/
def bAspect : WindowBuilder :=
  ((WindowBuilder.new gTriv).addTryHints []).constrainAspect 4 3

/-! ## The claims -/

/-- C1: for every builder configuration, `create()` attempts the candidate
hint sets in exactly the order they were added via `try_hints()` — the
attempted candidates are the rejected prefix of `try_hints` followed by its
first accepted element — and the result is the window (and event stream)
built from that first accepted candidate, with no later candidate
attempted. -/
theorem claim1_create_first_success (b : WindowBuilder) :
    (WindowBuilder.create b).1 =
      (b.try_hints.find? (candidateOk b)).map (fun s => (windowFor b s, EventReceiver.mk)) ∧
    (WindowBuilder.create b).2.ops =
      b.glfw.ops ++
        (((b.try_hints.takeWhile (fun s => ! candidateOk b s) ++
            (b.try_hints.find? (candidateOk b)).toList).map (attemptBlock b)).flatten ++
          aspectTail (b.try_hints.any (candidateOk b)) b.aspect) := by
  refine ⟨create_fst b, ?_⟩
  rw [create_snd_ops]
  unfold createDelta attemptedList
  rfl

/-- C2: when candidate index `i` (0-indexed; the claim's `N` is `i + 1`) is
the first accepted by the platform oracle, `create()` makes exactly `i + 1`
creation attempts — one per candidate of the prefix `try_hints.take (i+1)`,
each attempt's trace beginning with a hint reset — and candidates past
index `i` are never attempted. -/
theorem claim2_attempt_count (b : WindowBuilder) (i : Nat) (s : List WindowHint)
    (hget : b.try_hints[i]? = some s) (hp : candidateOk b s = true)
    (hmin : ∀ s' ∈ b.try_hints.take i, candidateOk b s' = false) :
    (WindowBuilder.create b).2.ops =
      b.glfw.ops ++ (((b.try_hints.take (i + 1)).map (attemptBlock b)).flatten ++
        aspectTail true b.aspect) ∧
    List.countP isCreateOp (WindowBuilder.create b).2.ops =
      List.countP isCreateOp b.glfw.ops + (i + 1) ∧
    List.countP isResetOp (WindowBuilder.create b).2.ops =
      List.countP isResetOp b.glfw.ops + (i + 1) := by
  have hmin' : ∀ j, j < i → ∀ s', b.try_hints[j]? = some s' → candidateOk b s' = false := by
    intro j hj s' hg
    refine hmin s' ?_
    have : (b.try_hints.take i)[j]? = some s' := by
      rw [List.getElem?_take]
      simp [hj, hg]
    exact List.getElem?_mem this
  obtain ⟨hatt, hfind, hany⟩ :=
    attemptedList_first (candidateOk b) b.try_hints i s hget hp hmin'
  have hlen : i < b.try_hints.length := by
    by_contra hlt
    rw [List.getElem?_eq_none (by omega)] at hget
    exact Option.noConfusion hget
  have hops : (WindowBuilder.create b).2.ops =
      b.glfw.ops ++ (((b.try_hints.take (i + 1)).map (attemptBlock b)).flatten ++
        aspectTail true b.aspect) := by
    rw [create_snd_ops]
    unfold createDelta
    rw [hatt, hany]
  refine ⟨hops, ?_, ?_⟩
  · rw [hops]
    rw [List.countP_append, List.countP_append,
      countP_flatten_of_blocks isCreateOp (attemptBlock b) (fun s => by simp)]
    simp [List.length_take, Nat.min_eq_left (by omega : i + 1 ≤ b.try_hints.length)]
  · rw [hops]
    rw [List.countP_append, List.countP_append,
      countP_flatten_of_blocks isResetOp (attemptBlock b) (fun s => by simp)]
    simp [List.length_take, Nat.min_eq_left (by omega : i + 1 ≤ b.try_hints.length)]

theorem claim2_witness :
    (bTwo.try_hints[1]? = some [WindowHint.ContextVersion 1 0] ∧
      candidateOk bTwo [WindowHint.ContextVersion 1 0] = true ∧
      (∀ s' ∈ bTwo.try_hints.take 1, candidateOk bTwo s' = false)) ∧
    ((WindowBuilder.create bTwo).2.ops =
        bTwo.glfw.ops ++ (((bTwo.try_hints.take 2).map (attemptBlock bTwo)).flatten ++
          aspectTail true bTwo.aspect) ∧
      List.countP isCreateOp (WindowBuilder.create bTwo).2.ops =
        List.countP isCreateOp bTwo.glfw.ops + 2 ∧
      List.countP isResetOp (WindowBuilder.create bTwo).2.ops =
        List.countP isResetOp bTwo.glfw.ops + 2) :=
  ⟨⟨by decide, by decide, by decide⟩,
    claim2_attempt_count bTwo 1 [WindowHint.ContextVersion 1 0]
      (by decide) (by decide) (by decide)⟩

/-- C3 counterexample: `try_modern_context_hints()` appends thirteen
candidate hint sets, not twelve as the claim states. -/
theorem claim3_counterexample :
    ((WindowBuilder.new gTriv).try_modern_context_hints).try_hints.length = 13 ∧
    ¬ ((WindowBuilder.new gTriv).try_modern_context_hints).try_hints.length = 12 := by
  decide

/-- C3 (amended): `try_modern_context_hints()` appends exactly thirteen
candidate hint sets, in the documented order and composition:
forward-compatible core-profile contexts for versions 4.5, 4.4, 4.3, 4.2,
4.1, 4.0, 3.2; then 3.1 forward-compatible; then bare 3.1; then 3.0
forward-compatible; then bare 3.0; then bare 2.1; then bare 2.0. -/
theorem claim3_modern_hints (b : WindowBuilder) :
    (WindowBuilder.try_modern_context_hints b).try_hints =
      b.try_hints ++
        [[WindowHint.ContextVersion 4 5, WindowHint.OpenGlForwardCompat true,
          WindowHint.OpenGlProfile OpenGlProfileHint.Core],
         [WindowHint.ContextVersion 4 4, WindowHint.OpenGlForwardCompat true,
          WindowHint.OpenGlProfile OpenGlProfileHint.Core],
         [WindowHint.ContextVersion 4 3, WindowHint.OpenGlForwardCompat true,
          WindowHint.OpenGlProfile OpenGlProfileHint.Core],
         [WindowHint.ContextVersion 4 2, WindowHint.OpenGlForwardCompat true,
          WindowHint.OpenGlProfile OpenGlProfileHint.Core],
         [WindowHint.ContextVersion 4 1, WindowHint.OpenGlForwardCompat true,
          WindowHint.OpenGlProfile OpenGlProfileHint.Core],
         [WindowHint.ContextVersion 4 0, WindowHint.OpenGlForwardCompat true,
          WindowHint.OpenGlProfile OpenGlProfileHint.Core],
         [WindowHint.ContextVersion 3 2, WindowHint.OpenGlForwardCompat true,
          WindowHint.OpenGlProfile OpenGlProfileHint.Core],
         [WindowHint.ContextVersion 3 1, WindowHint.OpenGlForwardCompat true],
         [WindowHint.ContextVersion 3 1],
         [WindowHint.ContextVersion 3 0, WindowHint.OpenGlForwardCompat true],
         [WindowHint.ContextVersion 3 0],
         [WindowHint.ContextVersion 2 1],
         [WindowHint.ContextVersion 2 0]] ∧
    ((WindowBuilder.try_modern_context_hints b).try_hints.length =
      b.try_hints.length + 13) := by
  constructor
  · unfold WindowBuilder.try_modern_context_hints WindowBuilder.addTryHints
    simp
  · unfold WindowBuilder.try_modern_context_hints WindowBuilder.addTryHints
    simp

/-- C4 counterexample: with zero candidate hint sets configured and a
platform oracle that accepts every attempt, `create()` returns no window
and performs zero creation attempts — there is no implicit empty
candidate. -/
theorem claim4_counterexample :
    ((WindowBuilder.new gTriv).create).1 = none ∧
    List.countP isCreateOp ((WindowBuilder.new gTriv).create).2.ops = 0 := by
  decide

/-- C4 (amended): when zero candidate hint sets are configured, `create()`
makes no window-creation attempt at all — it performs no operation on the
GLFW handle and returns `none` regardless of the common hints. -/
theorem claim4_no_candidates (b : WindowBuilder) (h : b.try_hints = []) :
    (WindowBuilder.create b).1 = none ∧
    (WindowBuilder.create b).2.ops = b.glfw.ops := by
  unfold WindowBuilder.create
  rw [h]
  simp [createLoop]

theorem claim4_witness :
    (WindowBuilder.new gTriv).try_hints = [] ∧
    ((WindowBuilder.create (WindowBuilder.new gTriv)).1 = none ∧
      (WindowBuilder.create (WindowBuilder.new gTriv)).2.ops =
        (WindowBuilder.new gTriv).glfw.ops) :=
  ⟨rfl, claim4_no_candidates (WindowBuilder.new gTriv) rfl⟩

/-- C5: in every window-creation attempt made by `create()`, the applied
hint sequence is all common hints in the order they were added, followed by
the hints of the current candidate set in order: every attempt's trace is a
hint reset, the common hints, the candidate hints, then the creation
call. -/
theorem claim5_common_hints_first (b : WindowBuilder) :
    (WindowBuilder.create b).2.ops =
      b.glfw.ops ++
        (((attemptedList (candidateOk b) b.try_hints).map (fun s =>
            GlfwOp.defaultWindowHints ::
              (b.common_hints.map GlfwOp.windowHint ++ s.map GlfwOp.windowHint ++
                [GlfwOp.createWindowOp (resolvedWidth b) (resolvedHeight b)
                  (resolvedTitle b) (resolvedMode b) (candidateOk b s)]))).flatten ++
          aspectTail (b.try_hints.any (candidateOk b)) b.aspect) := by
  rw [create_snd_ops]
  unfold createDelta attemptBlock attemptOps
  rfl

/-- C6: every window-creation attempt in `create()` is passed the
configured size, title and mode when set, and otherwise exactly the
defaults `640 x 480`, `"GLFW Window"` and windowed mode. -/
theorem claim6_create_args (b : WindowBuilder) (w h : Nat) (t : String) (m : WindowMode)
    (ok : Bool) (hops : b.glfw.ops = [])
    (hmem : GlfwOp.createWindowOp w h t m ok ∈ (WindowBuilder.create b).2.ops) :
    w = (b.size.getD (640, 480)).1 ∧ h = (b.size.getD (640, 480)).2 ∧
    t = b.title.getD "GLFW Window" ∧ m = b.mode.getD WindowMode.Windowed := by
  rw [create_snd_ops, hops] at hmem
  unfold createDelta at hmem
  simp only [List.nil_append, List.mem_append, List.mem_flatten, List.mem_map,
    mem_aspectTail_iff] at hmem
  rcases hmem with ⟨l, ⟨s, hs, rfl⟩, hop⟩ | ⟨nd, _, _, habs⟩
  · unfold attemptBlock attemptOps resolvedWidth resolvedHeight resolvedTitle
      resolvedMode at hop
    simp at hop
    exact ⟨hop.1, hop.2.1, hop.2.2.1, hop.2.2.2.1⟩
  · exact absurd habs (by simp)

theorem claim6_witness :
    (bEmptyCandidate.glfw.ops = [] ∧
      GlfwOp.createWindowOp 640 480 "GLFW Window" WindowMode.Windowed true ∈
        (WindowBuilder.create bEmptyCandidate).2.ops) ∧
    (640 = (bEmptyCandidate.size.getD (640, 480)).1 ∧
      480 = (bEmptyCandidate.size.getD (640, 480)).2 ∧
      "GLFW Window" = bEmptyCandidate.title.getD "GLFW Window" ∧
      WindowMode.Windowed = bEmptyCandidate.mode.getD WindowMode.Windowed) :=
  ⟨⟨rfl, by decide⟩,
    claim6_create_args bEmptyCandidate 640 480 "GLFW Window" WindowMode.Windowed true
      rfl (by decide)⟩

/-- C7: `create()` issues a `set_aspect_ratio` call on the created window
if and only if some window-creation attempt succeeded and an aspect-ratio
constraint was configured; it is never issued when every attempt fails. -/
theorem claim7_aspect_iff (b : WindowBuilder) (numer denom : Nat)
    (hops : b.glfw.ops = []) :
    GlfwOp.setAspectOp numer denom ∈ (WindowBuilder.create b).2.ops ↔
      ((WindowBuilder.create b).1.isSome = true ∧ b.aspect = some (numer, denom)) := by
  rw [create_snd_ops, hops, create_fst]
  unfold createDelta
  constructor
  · intro hmem
    simp only [List.nil_append, List.mem_append, List.mem_flatten, List.mem_map,
      mem_aspectTail_iff] at hmem
    rcases hmem with ⟨l, ⟨s, hs, rfl⟩, hop⟩ | ⟨nd, hnd, hsucc, heq⟩
    · unfold attemptBlock at hop
      exact absurd hop (setAspect_not_mem_attemptOps _ _ _ _ _ _ _ _ _)
    · simp only [GlfwOp.setAspectOp.injEq] at heq
      refine ⟨?_, by rw [hnd, heq.1, heq.2]⟩
      rw [Option.isSome_map']
      rcases List.any_eq_true.mp hsucc with ⟨s, hs, hp⟩
      exact List.find?_isSome.mpr ⟨s, hs, hp⟩
  · rintro ⟨hsome, haspect⟩
    rw [Option.isSome_map'] at hsome
    have hany : b.try_hints.any (candidateOk b) = true :=
      List.any_eq_true.mpr (List.find?_isSome.mp hsome)
    simp only [List.nil_append, List.mem_append, mem_aspectTail_iff]
    right
    exact ⟨(numer, denom), haspect, hany, rfl⟩

theorem claim7_witness :
    bAspect.glfw.ops = [] ∧
    (GlfwOp.setAspectOp 4 3 ∈ (WindowBuilder.create bAspect).2.ops ↔
      ((WindowBuilder.create bAspect).1.isSome = true ∧ bAspect.aspect = some (4, 3))) :=
  ⟨rfl, claim7_aspect_iff bAspect 4 3 rfl⟩

/-- C8: `create()` is a total operation whose result is an `Option`: it is
`some` exactly when some configured candidate is accepted by the platform
oracle, and `none` exactly when every candidate fails or none were
provided; per-candidate failures never surface to the caller. -/
theorem claim8_option_result (b : WindowBuilder) :
    ((WindowBuilder.create b).1.isSome = true ↔
      ∃ s ∈ b.try_hints, candidateOk b s = true) ∧
    ((WindowBuilder.create b).1 = none ↔
      ∀ s ∈ b.try_hints, candidateOk b s = false) := by
  rw [create_fst]
  constructor
  · rw [Option.isSome_map']
    rw [List.find?_isSome]
  · rw [Option.map_eq_none']
    rw [List.find?_eq_none]
    simp

/-- C9: no configuration method touches the GLFW handle: `size`, `title`,
`mode`, `aspect_ratio`, `no_error`, `refresh_rate`, `common_hints`,
`try_hints` and `try_modern_context_hints` all leave the handle — its hint
state, trace and oracle — unchanged; only `create()` operates on it. -/
theorem claim9_config_methods_pure (b : WindowBuilder) (width height numer denom : Nat)
    (t : String) (m : WindowMode) (rate : Option Nat) (hints : List WindowHint) :
    (b.setSize width height).glfw = b.glfw ∧
    (b.setTitle t).glfw = b.glfw ∧
    (b.setMode m).glfw = b.glfw ∧
    (b.constrainAspect numer denom).glfw = b.glfw ∧
    (WindowBuilder.no_error b).glfw = b.glfw ∧
    (WindowBuilder.refresh_rate b rate).glfw = b.glfw ∧
    (b.addCommonHints hints).glfw = b.glfw ∧
    (b.addTryHints hints).glfw = b.glfw ∧
    (WindowBuilder.try_modern_context_hints b).glfw = b.glfw := by
  refine ⟨rfl, rfl, rfl, rfl, rfl, rfl, rfl, rfl, ?_⟩
  simp [WindowBuilder.try_modern_context_hints, WindowBuilder.addTryHints]

/-- C10: `try_hints` with an empty hint list appends an empty candidate
set, which still counts as one attempt: starting from a builder with no
candidates, `create()` then performs a hint reset, applies only the common
hints, and makes exactly one creation attempt, whose success is decided by
the common hints alone. -/
theorem claim10_empty_candidate (b : WindowBuilder) (h : b.try_hints = []) :
    (b.addTryHints []).try_hints = [[]] ∧
    candidateOk b [] =
      b.glfw.createOk b.common_hints (resolvedWidth b) (resolvedHeight b)
        (resolvedTitle b) (resolvedMode b) ∧
    (WindowBuilder.create (b.addTryHints [])).2.ops =
      b.glfw.ops ++
        ((GlfwOp.defaultWindowHints ::
            (b.common_hints.map GlfwOp.windowHint ++
              [GlfwOp.createWindowOp (resolvedWidth b) (resolvedHeight b) (resolvedTitle b)
                (resolvedMode b) (candidateOk b [])])) ++
          aspectTail (candidateOk b []) b.aspect) ∧
    (WindowBuilder.create (b.addTryHints [])).1.isSome = candidateOk b [] := by
  have htry : (b.addTryHints []).try_hints = [[]] := by
    unfold WindowBuilder.addTryHints
    simp [h]
  have hco : candidateOk (b.addTryHints []) = candidateOk b := rfl
  have hdelta : attemptedList (candidateOk b) [([] : List WindowHint)] = [[]] := by
    unfold attemptedList
    cases hc : candidateOk b [] <;>
      simp [List.takeWhile_cons, List.find?_cons, hc]
  have hok : candidateOk b [] =
      b.glfw.createOk b.common_hints (resolvedWidth b) (resolvedHeight b)
        (resolvedTitle b) (resolvedMode b) := by
    unfold candidateOk
    rw [List.append_nil]
  refine ⟨htry, hok, ?_, ?_⟩
  · rw [create_snd_ops]
    unfold createDelta
    rw [hco, htry, hdelta]
    simp only [attemptBlock, attemptOps, List.any_cons, List.map_cons, List.map_nil,
      List.flatten_cons, List.flatten_nil, List.append_nil, List.any_nil, Bool.or_false]
    rfl
  · rw [create_fst]
    rw [hco, htry]
    rw [Option.isSome_map']
    cases hc : candidateOk b [] <;>
      simp [List.find?_cons, hc]

theorem claim10_witness :
    (WindowBuilder.new gTriv).try_hints = [] ∧
    (((WindowBuilder.new gTriv).addTryHints []).try_hints = [[]] ∧
      candidateOk (WindowBuilder.new gTriv) [] =
        (WindowBuilder.new gTriv).glfw.createOk (WindowBuilder.new gTriv).common_hints
          (resolvedWidth (WindowBuilder.new gTriv)) (resolvedHeight (WindowBuilder.new gTriv))
          (resolvedTitle (WindowBuilder.new gTriv)) (resolvedMode (WindowBuilder.new gTriv)) ∧
      (WindowBuilder.create ((WindowBuilder.new gTriv).addTryHints [])).2.ops =
        (WindowBuilder.new gTriv).glfw.ops ++
          ((GlfwOp.defaultWindowHints ::
              ((WindowBuilder.new gTriv).common_hints.map GlfwOp.windowHint ++
                [GlfwOp.createWindowOp (resolvedWidth (WindowBuilder.new gTriv))
                  (resolvedHeight (WindowBuilder.new gTriv))
                  (resolvedTitle (WindowBuilder.new gTriv))
                  (resolvedMode (WindowBuilder.new gTriv))
                  (candidateOk (WindowBuilder.new gTriv) [])])) ++
            aspectTail (candidateOk (WindowBuilder.new gTriv) [])
              (WindowBuilder.new gTriv).aspect) ∧
      (WindowBuilder.create ((WindowBuilder.new gTriv).addTryHints [])).1.isSome =
        candidateOk (WindowBuilder.new gTriv) []) :=
  ⟨rfl, claim10_empty_candidate (WindowBuilder.new gTriv) rfl⟩

end NiceGlfw
